import Mathlib

/-!
Shallow embedding of the DXF generator (`src/app.py`): the data-preparation
function `_prepare_data_for_dxf`, the drawing emitter `create_dxf_drawing`
and the batch loop of `generate_dxf_batch`, together with proofs of the
specified properties.

Modelling conventions:

* Python floats are modelled as exact rationals (`ℚ`) wherever the program
  computes with them.  Every numeric value appearing in the claims is a
  small decimal, for which binary doubles are exact, so the rational model
  agrees with CPython there.  Non-finite floats (`inf`/`nan`) are modelled
  exactly where they decide control flow: `PyFloat`/`pyFloatFull?` extend
  the parse with `inf`, `nan` and overflow, and `prepareFull` /
  `generate_dxf_batch_full` carry the resulting uncaught `int()` exception
  of the style step, the one place the source lets a non-finite float
  raise.  Where CPython lets non-finite values flow silently into geometry
  or annotation text (no exception), their propagation — like underscore
  digit separators and binary-rounding artefacts of `float` — stays
  outside the model.
* Python dicts are association lists in which later bindings shadow earlier
  ones (`dset` prepends).  The program reads prepared dicts exclusively
  through `.get`/`[]`, never iterating them, so dict insertion order is
  observationally irrelevant and is not modelled.
* `ezdxf` documents are modelled structurally, as the layers, dimension
  styles, polyline, text and dimension entities which the source creates.
  Serialisation (`doc.write`) is a pure function of that structure; the
  content of a produced file is identified with the `Doc` value.
* `re`, `str.strip`, `str.lower`, `str.upper` and `str.replace` are modelled
  on ASCII text: Python's `\w` additionally matches non-ASCII word
  characters and Python's case mappings cover all of Unicode, so theorems
  whose truth could depend on that carry an ASCII hypothesis.
-/

namespace GeradorDxf

/- Batteries hides the defining equations of rational arithmetic behind
irreducibility; restore the default transparency locally so that concrete
runs of the embedded program can be evaluated by `decide`/`rfl`. -/
attribute [local semireducible] Rat.mul Rat.add Rat.sub Rat.inv Rat.ofScientific

/-- A raw Python value as it reaches the pipeline: a string (form fields and
spreadsheet cells read with `dtype=str`) or a number (defaults such as the
literal `7` in `params.get('contour_color', 7)`, and the floats produced by
the coercion step). -/
inductive Value where
  | str (s : String)
  | num (q : ℚ)
deriving DecidableEq, Repr

/-- A Python dict, as an association list; later bindings shadow earlier
ones. -/
abbrev Dict := List (String × Value)

/-- Python dict assignment `d[k] = v`.  Prepends; `dget?` finds the newest
binding, which matches dict-update semantics.  Insertion order is never
observed downstream (the prepared dict is only read through `.get`). -/
def dset (d : Dict) (k : String) (v : Value) : Dict := (k, v) :: d

/-- Python `d.get(k)` on a dict. -/
def dget? (d : Dict) (k : String) : Option Value :=
  (d.find? (fun kv => kv.1 == k)).map Prod.snd

/-- Python `d.update(other)`: every binding of `other` is written into
`d`.  A colliding key's value is replaced in place (the key keeps its
original position, as CPython dicts do) and a new key is appended, so no
stale shadowed binding survives: the update wins both for `dget?` lookups
and when the merged dict is subsequently iterated (`translateKeys` iterates
it). -/
def dictUpdate (d : Dict) (other : Dict) : Dict :=
  other.foldl
    (fun acc kv =>
      if acc.any (fun kv2 => kv2.1 == kv.1) then
        acc.map (fun kv2 => if kv2.1 == kv.1 then (kv2.1, kv.2) else kv2)
      else acc ++ [kv])
    d

/-- Python `s.replace(a, b)` for one-character patterns (the only kind the source
uses: `',' → '.'`, `'.' → ','` and `' ' → '_'`). -/
def pyReplaceChar (src dst : Char) (s : String) : String :=
  String.mk (s.data.map (fun c => if c = src then dst else c))

/-- Python `s.lower()` (ASCII; see the header note). -/
def pyLower (s : String) : String := String.mk (s.data.map Char.toLower)

/-- Python `s.upper()` (ASCII; see the header note). -/
def pyUpper (s : String) : String := String.mk (s.data.map Char.toUpper)

/-- Python `s.strip()`. -/
def pyStrip (s : String) : String :=
  String.mk (((s.data.dropWhile Char.isWhitespace).reverse.dropWhile
    Char.isWhitespace).reverse)

/-- Numeric value of a digit string. -/
def digitsVal (ds : List Char) : ℕ :=
  ds.foldl (fun a c => a * 10 + (c.toNat - 48)) 0

/-- Optional exponent suffix of a Python float literal (`e5`, `E-3`, …); an
empty remainder means exponent `0`, anything else is a parse error. -/
def parseExpPart : List Char → Option ℤ
  | [] => some 0
  | c :: rest =>
    if c = 'e' ∨ c = 'E' then
      match rest with
      | '+' :: ds =>
        if !ds.isEmpty && ds.all Char.isDigit then some ((digitsVal ds : ℤ))
        else none
      | '-' :: ds =>
        if !ds.isEmpty && ds.all Char.isDigit then some (-(digitsVal ds : ℤ))
        else none
      | ds =>
        if !ds.isEmpty && ds.all Char.isDigit then some ((digitsVal ds : ℤ))
        else none
    else none

/-- Mantissa of a Python float literal: `digits`, `digits.digits`,
`digits.` or `.digits`.  Returns its value and the unconsumed rest. -/
def parseMantissa (cs : List Char) : Option (ℚ × List Char) :=
  let ip := cs.takeWhile Char.isDigit
  let r1 := cs.dropWhile Char.isDigit
  match r1 with
  | '.' :: r2 =>
    let fp := r2.takeWhile Char.isDigit
    let r3 := r2.dropWhile Char.isDigit
    if ip.isEmpty && fp.isEmpty then none
    else some ((digitsVal ip : ℚ) + (digitsVal fp : ℚ) / ((10 : ℚ) ^ fp.length), r3)
  | _ => if ip.isEmpty then none else some ((digitsVal ip : ℚ), r1)

/-- Python `float(s)` on a string, finite fragment: strips whitespace, then
an optional sign, a mantissa and an optional exponent, giving the exact
rational value.  `none` models `ValueError`.  The non-finite results of
CPython `float` (`inf`/`nan` tokens and overflow) are layered on top by
`pyFloatFull?` below; underscore digit separators are not modelled. -/
def pyFloat? (s : String) : Option ℚ :=
  let cs := (pyStrip s).data
  let sgn : ℚ × List Char :=
    match cs with
    | '+' :: r => (1, r)
    | '-' :: r => (-1, r)
    | r => (1, r)
  match parseMantissa sgn.2 with
  | none => none
  | some (m, rest) =>
    match parseExpPart rest with
    | none => none
    | some e =>
      some (sgn.1 * (if 0 ≤ e then m * (10 : ℚ) ^ e.toNat
                     else m / (10 : ℚ) ^ ((-e).toNat)))

/-- Models `to_float` from `_prepare_data_for_dxf`: `float(str(value).replace(',',
'.'))`, with `default` on failure.  A value that already is a float
round-trips through `str`/`float` unchanged. -/
def to_float (v : Value) (default : ℚ) : ℚ :=
  match v with
  | Value.num q => q
  | Value.str s =>
    match pyFloat? (pyReplaceChar ',' '.' s) with
    | some q => q
    | none => default

/-- Python truthiness of the values that can occur in a record. -/
def truthy : Value → Bool
  | Value.str s => if s = "" then false else true
  | Value.num q => if q = 0 then false else true

/-- Truthiness of a `d.get(k)` result (`None` is falsy). -/
def truthyOpt : Option Value → Bool
  | none => false
  | some v => truthy v

/-- Pad a digit string with leading zeros to width `w`. -/
def padZeros (s : String) (w : ℕ) : String :=
  if s.length ≥ w then s
  else String.mk (List.replicate (w - s.length) '0') ++ s

/-- Python `str(q)` for a float of integral value (`100.0` style); general floats
are rendered through their shortest exact decimal expansion when one
exists.  (Python prints a 17-significant-digit approximation for floats
with no finite expansion; those never arise in the claims.) -/
def ratStr (q : ℚ) : String :=
  let sign := if q < 0 then "-" else ""
  let a := |q|
  if a.den = 1 then sign ++ toString a.num ++ ".0"
  else
    match (List.range 18).find? (fun k => (a * (10 : ℚ) ^ k).den = 1) with
    | some k =>
      let n := (a * (10 : ℚ) ^ k).num.natAbs
      sign ++ toString (n / 10 ^ k) ++ "." ++ padZeros (toString (n % 10 ^ k)) k
    | none => sign ++ toString a.num ++ "/" ++ toString a.den

/-- Python `str(value)` for the two value kinds. -/
def pyStr : Value → String
  | Value.str s => s
  | Value.num q => ratStr q

/-- Python `str(x)` where `x` came from `d.get(k)` and may be `None`. -/
def pyStrOpt : Option Value → String
  | none => "None"
  | some v => pyStr v

/-- Python `int(q)` on a finite float: truncation toward zero.  On a
non-finite float CPython `int()` raises; that error path is modelled by
`pyIntFull` below. -/
def pyInt (q : ℚ) : ℤ := q.num.tdiv (q.den : ℤ)

/-- Floor of a rational, used by the round-half-even formatter. -/
def ratFloor (q : ℚ) : ℤ := q.num.fdiv (q.den : ℤ)

/-- Round to the nearest integer, ties to even (the rounding CPython's
fixed-point formatting applies to the value being printed). -/
def roundHalfEven (q : ℚ) : ℤ :=
  let f := ratFloor q
  let r := q - (f : ℚ)
  if r < 1 / 2 then f
  else if 1 / 2 < r then f + 1
  else if f % 2 = 0 then f else f + 1

/-- Fixed-point formatting `f"{q:.nd}f"` of an exact rational:
round-half-even to `nd` decimals, zero-padded fraction, `-` sign kept even
when the rounded magnitude is zero.  Agrees with CPython wherever the float
being formatted is exact (all values in the claims are). -/
def formatFixed (q : ℚ) (nd : ℕ) : String :=
  let scaled := roundHalfEven (q * (10 : ℚ) ^ nd)
  let sign := if q < 0 then "-" else ""
  let m := scaled.natAbs
  if nd = 0 then sign ++ toString m
  else sign ++ toString (m / 10 ^ nd) ++ "." ++ padZeros (toString (m % 10 ^ nd)) nd

/-- Python `f"{z:02d}"`: zero-pad to two characters, the padding sitting between
the sign and the digits. -/
def formatInt02 (z : ℤ) : String :=
  if z < 0 then "-" ++ padZeros (toString z.natAbs) 1
  else padZeros (toString z.natAbs) 2

/-- The fixed truthy-token set of the source (`['true', 'on', '1', 'sim']`). -/
def TRUTHY_TOKENS : List String := ["true", "on", "1", "sim"]

/-- Models `str(d.get(k, '')).lower() in ['true', 'on', '1', 'sim']`, the boolean
option parse applied to `include_dims` and `include_text_info`. -/
def parseBoolOpt (o : Option Value) : Bool :=
  TRUTHY_TOKENS.contains (pyLower (pyStr (o.getD (Value.str ""))))

/-- The alias table `COLUMN_MAPPING` of the source. -/
def COLUMN_MAPPING : List (String × String) :=
  [("nome_arquivo", "part_name"),
   ("custom_filename", "part_name"),
   ("drawing_code", "part_name"),
   ("forma", "shape"),
   ("largura", "width"),
   ("altura", "height"),
   ("diametro", "diameter"),
   ("base_(cateto_1)", "rt_base"),
   ("altura_(cateto_2)", "rt_height"),
   ("base", "triangle_base"),
   ("habilitar_bloco", "include_text_info"),
   ("cotas", "include_dims"),
   ("qtd", "part_quantity"),
   ("espessura", "material_thickness")]

/-- Python `str(old_key).strip().lower().replace(' ', '_')`. -/
def normalizeKey (k : String) : String :=
  pyReplaceChar ' ' '_' (pyLower (pyStrip k))

/-- Models `COLUMN_MAPPING.get(clean_key, clean_key)`: unrecognised keys pass
through unchanged. -/
def internalKey (k : String) : String :=
  match COLUMN_MAPPING.lookup (normalizeKey k) with
  | some v => v
  | none => normalizeKey k

/-- Step 1 of `_prepare_data_for_dxf`: rebuild the record under internal key
names. -/
def translateKeys (raw : Dict) : Dict :=
  raw.foldl (fun p kv => dset p (internalKey kv.1) kv.2) []

/-- The coercion default used in step 3: `1.0 if key == 'part_quantity'
else 0.0`. -/
def defaultFor (k : String) : ℚ := if k = "part_quantity" then 1 else 0

/-- One iteration of the coercion loop: `if key in params: params[key] =
to_float(params[key], default)`.  Absent keys are left untouched. -/
def coerceStep (d : Dict) (k : String) : Dict :=
  match dget? d k with
  | none => d
  | some v => dset d k (Value.num (to_float v (defaultFor k)))

/-- The keys the coercion loop visits, in loop order. -/
def numericKeys : List String :=
  ["width", "height", "diameter", "material_thickness", "material_density",
   "part_quantity"]

/-- Step 3 of `_prepare_data_for_dxf`: the whole coercion loop. -/
def coerceNumerics (p : Dict) : Dict := numericKeys.foldl coerceStep p

/-- Reads `params.get(k, d)` as a number.  After the coercion loop every
present numeric key holds a float; on a (then unreachable) string value the
default is returned. -/
def getNumD (p : Dict) (k : String) (d : ℚ) : ℚ :=
  match dget? p k with
  | some (Value.num q) => q
  | some (Value.str _) => d
  | none => d

/-- Python `max(a, b)` on two floats (the leftmost maximal value). -/
def pyMax (a b : ℚ) : ℚ := if a ≤ b then b else a

/-- Python `min(a, b)` on two floats. -/
def pyMin (a b : ℚ) : ℚ := if a ≤ b then a else b

/-- Bundle `params['styles']` of step 4. -/
structure Styles where
  contour_color : ℤ
  holes_color : ℤ
  text_color : ℤ
  include_dims : Bool
  char_height : ℚ
  dim_distance : ℚ
  text_insert_point : ℚ × ℚ
deriving DecidableEq, Repr

/-- Models `to_float(params.get(k, d))` — the color reads of step 4; note the
inner `to_float` default is `0.0` there, not `d`. -/
def colorFloat (p : Dict) (k : String) (d : ℚ) : ℚ :=
  match dget? p k with
  | none => d
  | some v => to_float v 0

/-- Step 4 of `_prepare_data_for_dxf`: the dynamic style calculation. -/
def mkStyles (p : Dict) : Styles :=
  let maxDim0 := pyMax (getNumD p "width" 0)
    (pyMax (getNumD p "height" 0) (getNumD p "diameter" 0))
  let maxDim := if maxDim0 > 0 then maxDim0 else 200
  let char_height := pyMin (pyMax (maxDim / 25) 5) 35
  { contour_color := pyInt (colorFloat p "contour_color" 7)
    holes_color := pyInt (colorFloat p "holes_color" 1)
    text_color := pyInt (colorFloat p "text_color" 2)
    include_dims := parseBoolOpt (dget? p "include_dims")
    char_height := char_height
    dim_distance := pyMax 15 (char_height * 3)
    text_insert_point := (0, -char_height * 2) }

/-- The shape-specific area of step 5 (`rectangle: width × height`; any
other shape leaves `area_mm2 = 0`). -/
def areaOf (p : Dict) : ℚ :=
  if dget? p "shape" = some (Value.str "rectangle") then
    getNumD p "width" 0 * getNumD p "height" 0
  else 0

/-- Step 5 of `_prepare_data_for_dxf`: the annotation lines.  An area `≤ 0`
raises inside the `try`, which the handler turns into the fixed two-line
diagnostic; otherwise the four weight lines are produced. -/
def mkTextLines (p : Dict) : List String :=
  if areaOf p ≤ 0 then
    [pyUpper (pyStr ((dget? p "part_name").getD (Value.str ""))),
     "ERRO NO CALCULO DE PESO"]
  else
    let volume := (areaOf p / 1000000) * (getNumD p "material_thickness" 0 / 1000)
    let unitW := volume * getNumD p "material_density" 7850
    let qty := pyInt (getNumD p "part_quantity" 1)
    let totalW := unitW * (qty : ℚ)
    [pyUpper (pyStr ((dget? p "part_name").getD (Value.str ""))),
     "Espessura: " ++ formatFixed (getNumD p "material_thickness" 0) 2 ++
       " mm  (Qtd: " ++ formatInt02 qty ++ "x)",
     pyReplaceChar '.' ',' ("Peso Unitario: " ++ formatFixed unitW 3 ++ " Kg"),
     pyReplaceChar '.' ',' ("Peso Total: " ++ formatFixed totalW 3 ++ " Kg")]

/-- The validated parameter bundle `_prepare_data_for_dxf` hands to the
emitter: the coerced dict plus the `styles` and optional `text_lines`
entries the function adds to it. -/
structure Prepared where
  params : Dict
  styles : Styles
  text_lines : Option (List String)
deriving DecidableEq, Repr

/-- The success value of `_prepare_data_for_dxf` on a raw record. -/
def preparedOf (raw : Dict) : Prepared :=
  let p := coerceNumerics (translateKeys raw)
  { params := p
    styles := mkStyles p
    text_lines :=
      if parseBoolOpt (dget? p "include_text_info") then some (mkTextLines p)
      else none }

/-- Models `_prepare_data_for_dxf`: key translation, the essential validation of
`part_name`/`shape`, type coercion, styles, annotation lines.  The error
string models the `(None, message)` failure return. -/
def _prepare_data_for_dxf (raw : Dict) : Except String Prepared :=
  if truthyOpt (dget? (translateKeys raw) "part_name") &&
      truthyOpt (dget? (translateKeys raw) "shape") then
    Except.ok (preparedOf raw)
  else
    Except.error "Dados insuficientes: \x27part_name\x27 ou \x27shape\x27 ausentes."

/-- A layer of the DXF document (`doc.layers.new(name, color)`). -/
structure Layer where
  name : String
  color : ℤ
deriving DecidableEq, Repr

/-- A dimension style (`doc.dimstyles.new(name, dimtxt)`). -/
structure DimStyle where
  name : String
  dimtxt : ℚ
deriving DecidableEq, Repr

/-- A lightweight polyline entity (`msp.add_lwpolyline`). -/
structure PolylineEnt where
  points : List (ℚ × ℚ)
  closed : Bool
  layer : String
deriving DecidableEq, Repr

/-- A text entity (`msp.add_text`). -/
structure TextEnt where
  text : String
  layer : String
  height : ℚ
  insert : ℚ × ℚ
deriving DecidableEq, Repr

/-- An aligned dimension entity (`msp.add_aligned_dim`). -/
structure DimEnt where
  p1 : ℚ × ℚ
  p2 : ℚ × ℚ
  distance : ℚ
  layer : String
  dimstyle : String
deriving DecidableEq, Repr

/-- The DXF document, as the structure the source assembles; the serialized
file content is a pure function of this value. -/
structure Doc where
  layers : List Layer
  dimstyles : List DimStyle
  polylines : List PolylineEnt
  texts : List TextEnt
  dims : List DimEnt
deriving DecidableEq, Repr

/-- A character matched by `\w` in an ASCII string, or by the literal `.` /
`-` of the sanitizing pattern `[^\w.-]+` (Python additionally counts
non-ASCII word characters in `\w`; see the header note). -/
def allowedChar (c : Char) : Bool :=
  (('A' ≤ c && c ≤ 'Z') || ('a' ≤ c && c ≤ 'z') || ('0' ≤ c && c ≤ '9')
    || c = '_' || c = '.' || c = '-')

/-- Python `re.sub(r'[^\w.-]+', '_', s)` over a character list: each maximal run
of disallowed characters collapses into a single `_`.  The flag records
whether the previous character was part of such a run. -/
def sanitizeAux : List Char → Bool → List Char
  | [], _ => []
  | c :: rest, inRun =>
    if allowedChar c then c :: sanitizeAux rest false
    else if inRun then sanitizeAux rest true
    else '_' :: sanitizeAux rest true

/-- Python `re.sub(r'[^\w.-]+', '_', s)`. -/
def pySubSanitize (s : String) : String := String.mk (sanitizeAux s.data false)

/-- Message of the `except KeyError` handler of `create_dxf_drawing`
(`str(KeyError('width'))` prints as `'width'`, quotes included). -/
def keyErrMsg (shape : String) (k : String) : String :=
  "Parâmetro obrigatório ausente para a forma \x27" ++ shape ++ "\x27: \x27" ++
    k ++ "\x27"

/-- Models `create_dxf_drawing`: layer creation, shape dispatch (only `rectangle`
is registered), text entities, dimension entities, serialisation and
filename sanitisation.  `Except.error` models the `(None, message)`
returns: the unknown-shape return, the `KeyError` handler for a missing
geometry parameter and the generic internal-fault handler (reached in the
model when a geometry value is a non-float, which makes `ezdxf` raise). -/
def create_dxf_drawing (pp : Prepared) : Except String (Doc × String) :=
  let st := pp.styles
  let lines := pp.text_lines.getD []
  let hasText := !lines.isEmpty
  let layers :=
    [Layer.mk "CONTORNO" st.contour_color, Layer.mk "FUROS" st.holes_color]
      ++ (if hasText then [Layer.mk "TEXTO" st.text_color] else [])
      ++ (if st.include_dims then [Layer.mk "COTAS" st.text_color] else [])
  let dimstyles :=
    if st.include_dims then [DimStyle.mk "NOROACO_DIMSTYLE" st.char_height]
    else []
  let shapeV := dget? pp.params "shape"
  if shapeV = some (Value.str "rectangle") then
    match dget? pp.params "width" with
    | none => Except.error (keyErrMsg (pyStrOpt shapeV) "width")
    | some (Value.str _) => Except.error "Erro interno de desenho."
    | some (Value.num w) =>
      match dget? pp.params "height" with
      | none => Except.error (keyErrMsg (pyStrOpt shapeV) "height")
      | some (Value.str _) => Except.error "Erro interno de desenho."
      | some (Value.num h) =>
        let contour := PolylineEnt.mk [(0, 0), (w, 0), (w, h), (0, h)] true "CONTORNO"
        let texts :=
          if hasText then
            lines.enum.map (fun il =>
              TextEnt.mk il.2 "TEXTO" st.char_height
                (st.text_insert_point.1,
                 st.text_insert_point.2 - (il.1 : ℚ) * (st.char_height * 1.5)))
          else []
        let dims :=
          if st.include_dims then
            [DimEnt.mk (0, h) (w, h) st.dim_distance "COTAS" "NOROACO_DIMSTYLE",
             DimEnt.mk (0, 0) (0, h) (-st.dim_distance) "COTAS" "NOROACO_DIMSTYLE"]
          else []
        Except.ok
          (Doc.mk layers dimstyles [contour] texts dims,
           pySubSanitize (pyStrOpt (dget? pp.params "part_name")) ++ ".dxf")
  else
    Except.error ("Forma \x27" ++ pyStrOpt shapeV ++ "\x27 desconhecida.")

/-- One record through preparation and drawing — the per-record pipeline of
the `/generate-dxf` route. -/
def runPipeline (raw : Dict) : Except String (Doc × String) :=
  match _prepare_data_for_dxf raw with
  | Except.error e => Except.error e
  | Except.ok pp => create_dxf_drawing pp

/-- One row of the batch loop: merge the per-request form overrides into the
row (`raw_data.update(request.form)`), prepare, draw; `none` when the row is
logged and skipped. -/
def processRecord (overrides : Dict) (raw : Dict) : Option (String × Doc) :=
  match _prepare_data_for_dxf (dictUpdate raw overrides) with
  | Except.error _ => none
  | Except.ok pp =>
    match create_dxf_drawing pp with
    | Except.error _ => none
    | Except.ok (doc, fname) => some (fname, doc)

/-- The batch loop of `generate_dxf_batch`: every row is run through the
pipeline; failing rows are skipped, each successful row contributes its
`(filename, content)` pair to the archive. -/
def generate_dxf_batch (overrides : Dict) (rows : List Dict) : List (String × Doc) :=
  rows.filterMap (fun r => processRecord overrides r)

/-- An ASCII character (the fragment of Unicode on which the string model
is exact). -/
def isAsciiChar (c : Char) : Bool := c.toNat < 128

/-- Modelled from the spec for the refinement comparison of the filename
claim: the sanitizer described there replaces every character outside
`[A-Za-z0-9._-]` with `_`, one underscore per character, then appends the
fixed extension. -/
def sanitizeSpecFilename (name : String) : String :=
  String.mk (name.data.map (fun c => if allowedChar c then c else '_')) ++ ".dxf"

/-- Concrete record of the rectangle-contour property. -/
def recC1 : Dict :=
  [("part_name", Value.str "P1"), ("shape", Value.str "rectangle"),
   ("width", Value.str "100"), ("height", Value.str "50")]

/-- A record exercising the weight block with `material_density` absent. -/
def recC2noDensity : Dict :=
  [("part_name", Value.str "P1"), ("shape", Value.str "rectangle"),
   ("width", Value.str "1000"), ("height", Value.str "1000"),
   ("material_thickness", Value.str "10"),
   ("include_text_info", Value.str "true")]

/-- The same record with `material_density` present and equal to the
claimed declared default `0.0`. -/
def recC2density0 : Dict :=
  recC2noDensity ++ [("material_density", Value.str "0")]

/-- Concrete record of the weight-annotation property. -/
def recC3 : Dict :=
  [("part_name", Value.str "P1"), ("shape", Value.str "rectangle"),
   ("width", Value.str "1000"), ("height", Value.str "1000"),
   ("material_thickness", Value.str "10"),
   ("material_density", Value.str "7850"),
   ("part_quantity", Value.str "2"),
   ("include_text_info", Value.str "true")]

/-- A drawable record whose rectangle area is zero (width `0`). -/
def recC4 : Dict :=
  [("part_name", Value.str "P1"), ("shape", Value.str "rectangle"),
   ("width", Value.str "0"), ("height", Value.str "50"),
   ("include_text_info", Value.str "sim")]

/-- Concrete record of the filename-sanitisation property. -/
def recC7 : Dict :=
  [("part_name", Value.str "Part #1/2024"), ("shape", Value.str "rectangle"),
   ("width", Value.str "10"), ("height", Value.str "10")]

/-- A prepared record whose shape does not resolve in the registry. -/
def ppC8 : Prepared :=
  preparedOf [("part_name", Value.str "P1"), ("shape", Value.str "circle")]

/-- Batch rows: three drawable records and two records missing `shape`. -/
def rowA : Dict :=
  [("part_name", Value.str "A1"), ("shape", Value.str "rectangle"),
   ("width", Value.str "10"), ("height", Value.str "20")]

def rowB : Dict :=
  [("part_name", Value.str "B2"), ("width", Value.str "10"),
   ("height", Value.str "20")]

def rowC : Dict :=
  [("part_name", Value.str "C3"), ("shape", Value.str "rectangle"),
   ("width", Value.str "30"), ("height", Value.str "40")]

def rowD : Dict :=
  [("part_name", Value.str "D4"), ("width", Value.str "5"),
   ("height", Value.str "5")]

def rowE : Dict :=
  [("part_name", Value.str "E5"), ("shape", Value.str "rectangle"),
   ("width", Value.str "7"), ("height", Value.str "8")]

/-- The five-row batch of the spec example: rows 2 and 4 lack `shape`. -/
def batchC9 : List Dict := [rowA, rowB, rowC, rowD, rowE]

/-- Concrete record of the determinism property. -/
def recC10 : Dict :=
  [("part_name", Value.str "W10"), ("shape", Value.str "rectangle"),
   ("width", Value.str "25"), ("height", Value.str "35"),
   ("include_text_info", Value.str "on"), ("cotas", Value.str "1")]

/-- The document the pipeline produces for `recC10`. -/
def docC10 : Doc :=
  ((runPipeline recC10).toOption.map Prod.fst).getD (Doc.mk [] [] [] [] [])

/-- Result domain of CPython `float`, non-finite values included:
`float('inf') = inf`, `float('nan') = nan`, and an overflowing literal such
as `1e999` also gives `inf` (string conversion itself never raises
`OverflowError`). -/
inductive PyFloat where
  | fin (q : ℚ)
  | pinf
  | ninf
  | nan
deriving DecidableEq, Repr

/-- Smallest magnitude at which CPython's round-to-nearest `float` parse of
a decimal literal overflows to infinity: the midpoint `2^1024 − 2^970`
between the largest finite double and `2^1024` (the midpoint itself rounds
up, ties-to-even).  Written as its integer numeral so that concrete runs
evaluate without unfolding a 1024-step power. -/
def overflowBound : ℚ := 179769313486231580793728971405303415079934132710037826936173778980444968292764750946649017977587207096330286416692887910946555547851940402630657488671505820681908902000708383676273854845817711531764475730270069855571366959622842914819860834936475292719074168444365510704342711559699508093042880177904174497792

/-- Python `float(s)` with its full result domain: the case-insensitive
tokens `inf` / `infinity` / `nan` with an optional sign, infinity on
overflow, and otherwise the finite parse of `pyFloat?`.  `none` still
models `ValueError`. -/
def pyFloatFull? (s : String) : Option PyFloat :=
  let t := pyLower (pyStrip s)
  if t = "inf" ∨ t = "+inf" ∨ t = "infinity" ∨ t = "+infinity" then
    some PyFloat.pinf
  else if t = "-inf" ∨ t = "-infinity" then some PyFloat.ninf
  else if t = "nan" ∨ t = "+nan" ∨ t = "-nan" then some PyFloat.nan
  else
    match pyFloat? s with
    | none => none
    | some q =>
      if q ≥ overflowBound then some PyFloat.pinf
      else if q ≤ -overflowBound then some PyFloat.ninf
      else some (PyFloat.fin q)

/-- Models `to_float` with the non-finite results it lets through when the
string denotes `inf` / `nan` or overflows: `float` returning a non-finite
value is not an error, so the `except` clause of `to_float` does not fire
and the value escapes to the caller. -/
def to_floatFull (v : Value) (default : ℚ) : PyFloat :=
  match v with
  | Value.num q => PyFloat.fin q
  | Value.str s =>
    match pyFloatFull? (pyReplaceChar ',' '.' s) with
    | some f => f
    | none => PyFloat.fin default

/-- Python `int(x)` on a float with its error cases: `OverflowError` on
`±inf` and `ValueError` on `nan`, truncation toward zero otherwise. -/
def pyIntFull : PyFloat → Except String ℤ
  | PyFloat.fin q => Except.ok (pyInt q)
  | PyFloat.pinf =>
    Except.error "OverflowError: cannot convert float infinity to integer"
  | PyFloat.ninf =>
    Except.error "OverflowError: cannot convert float infinity to integer"
  | PyFloat.nan =>
    Except.error "ValueError: cannot convert float NaN to integer"

/-- Models one color read `int(to_float(params.get(k, d)))` of step 4 of
`_prepare_data_for_dxf` with its error case: these three conversions sit
outside every `try` in the source, so a non-finite color float raises out
of the whole function. -/
def colorIntChecked (p : Dict) (k : String) (d : ℚ) : Except String ℤ :=
  pyIntFull (to_floatFull ((dget? p k).getD (Value.num d)) 0)

/-- Outcome of calling a Python function whose exceptions no caller
catches: either the returned value or the escaping exception. -/
inductive PyResult (α : Type) where
  | ok (a : α)
  | raised (msg : String)
deriving DecidableEq, Repr

/-- Whether the call raised. -/
def PyResult.isRaised {α : Type} : PyResult α → Bool
  | PyResult.raised _ => true
  | PyResult.ok _ => false

/-- Models `_prepare_data_for_dxf` together with its uncaught error path:
after validation, the three `int(to_float(params.get(color, d)))`
conversions of step 4 run in source order (`contour_color`, `holes_color`,
`text_color`) and raise out of the function on a non-finite float; when
none raises, every color value parsed finitely and the function returns its
usual `(params, error)` value, which is then exactly the finite-fragment
`_prepare_data_for_dxf`. -/
def prepareFull (raw : Dict) : PyResult (Except String Prepared) :=
  if truthyOpt (dget? (translateKeys raw) "part_name") &&
      truthyOpt (dget? (translateKeys raw) "shape") then
    match colorIntChecked (coerceNumerics (translateKeys raw)) "contour_color" 7 with
    | Except.error e => PyResult.raised e
    | Except.ok _ =>
      match colorIntChecked (coerceNumerics (translateKeys raw)) "holes_color" 1 with
      | Except.error e => PyResult.raised e
      | Except.ok _ =>
        match colorIntChecked (coerceNumerics (translateKeys raw)) "text_color" 2 with
        | Except.error e => PyResult.raised e
        | Except.ok _ => PyResult.ok (Except.ok (preparedOf raw))
  else
    PyResult.ok (Except.error
      "Dados insuficientes: \x27part_name\x27 ou \x27shape\x27 ausentes.")

/-- Models the batch loop of `generate_dxf_batch` together with exception
propagation: the loop has no handler, so a raise out of
`_prepare_data_for_dxf` aborts the whole batch at that row, while the
ordinary `(None, error)` returns are logged and skipped as before. -/
def generate_dxf_batch_full (overrides : Dict) :
    List Dict → PyResult (List (String × Doc))
  | [] => PyResult.ok []
  | r :: rs =>
    match prepareFull (dictUpdate r overrides) with
    | PyResult.raised e => PyResult.raised e
    | PyResult.ok (Except.error _) => generate_dxf_batch_full overrides rs
    | PyResult.ok (Except.ok pp) =>
      match create_dxf_drawing pp with
      | Except.error _ => generate_dxf_batch_full overrides rs
      | Except.ok (doc, fname) =>
        match generate_dxf_batch_full overrides rs with
        | PyResult.raised e => PyResult.raised e
        | PyResult.ok acc => PyResult.ok ((fname, doc) :: acc)

/-- A drawable batch row whose `contour_color` cell — an unmapped key that
passes straight through the normalizer — holds the string `inf`. -/
def rowColorInf : Dict :=
  [("part_name", Value.str "F6"), ("shape", Value.str "rectangle"),
   ("width", Value.str "10"), ("height", Value.str "10"),
   ("contour_color", Value.str "inf")]

theorem dget_dset_self (d : Dict) (k : String) (v : Value) :
    dget? (dset d k v) k = some v := by
  simp [dset, dget?, List.find?]

theorem dget_dset_ne (d : Dict) (k k' : String) (v : Value) (h : k' ≠ k) :
    dget? (dset d k' v) k = dget? d k := by
  have hb : (k' == k) = false := beq_eq_false_iff_ne.mpr h
  simp [dset, dget?, List.find?, hb]

theorem coerceStep_get_ne {K k : String} (d : Dict) (h : K ≠ k) :
    dget? (coerceStep d K) k = dget? d k := by
  unfold coerceStep
  cases hK : dget? d K with
  | none => rfl
  | some v => exact dget_dset_ne d k K _ h

theorem coerceStep_get_some {K : String} {d : Dict} {v : Value}
    (h : dget? d K = some v) :
    dget? (coerceStep d K) K = some (Value.num (to_float v (defaultFor K))) := by
  unfold coerceStep
  rw [h]
  exact dget_dset_self d K _

theorem coerceStep_get_none {K : String} {d : Dict} (h : dget? d K = none) :
    dget? (coerceStep d K) K = none := by
  unfold coerceStep
  rw [h]
  exact h

/-- Re-coercion changes nothing: `to_float` is the identity on values that already are floats, so
re-coercing a coerced value changes nothing. -/
theorem coerce_idem (v : Value) (d d' : ℚ) :
    to_float (Value.num (to_float v d)) d' = to_float v d := rfl

/-- What the whole coercion loop does to a key: a present value is mapped
through `to_float` with the key's default, an absent key stays absent and
every key outside the loop's list is untouched. -/
theorem coerce_foldl_get (ks : List String) (p : Dict) (k : String) :
    dget? (ks.foldl coerceStep p) k =
      if k ∈ ks then
        (dget? p k).map (fun v => Value.num (to_float v (defaultFor k)))
      else dget? p k := by
  induction ks generalizing p with
  | nil => simp
  | cons K ks ih =>
    rw [List.foldl_cons, ih]
    by_cases hKk : K = k
    · subst hKk
      cases hp : dget? p K with
      | none =>
        rw [coerceStep_get_none hp]
        simp
      | some v =>
        rw [coerceStep_get_some hp]
        by_cases hmem : K ∈ ks <;> simp [hmem, to_float]
    · rw [coerceStep_get_ne p hKk]
      simp [Ne.symm hKk]

/-- C1: for every prepared record with shape `rectangle` and coerced
numeric width `w` and height `h`, the drawing emitter places exactly one
closed lightweight polyline with the four vertices `(0,0), (w,0), (w,h),
(0,h)`, in that order, on the contour layer `CONTORNO`; in particular the
record `{part_name: P1, shape: rectangle, width: 100, height: 50}` yields
the closed 4-vertex contour `(0,0), (100,0), (100,50), (0,50)`. -/
theorem C1_rectangle_contour :
    (∀ (pp : Prepared) (w h : ℚ),
        dget? pp.params "shape" = some (Value.str "rectangle") →
        dget? pp.params "width" = some (Value.num w) →
        dget? pp.params "height" = some (Value.num h) →
        (create_dxf_drawing pp).toOption.map (fun df => df.1.polylines) =
          some [PolylineEnt.mk [(0, 0), (w, 0), (w, h), (0, h)] true "CONTORNO"]) ∧
    (runPipeline recC1).toOption.map (fun df => df.1.polylines) =
      some [PolylineEnt.mk [(0, 0), (100, 0), (100, 50), (0, 50)] true "CONTORNO"] := by
  constructor
  · intro pp w h hs hw hh
    simp only [create_dxf_drawing, hs, hw, hh, if_pos]
    rfl
  · decide

theorem C1_rectangle_contour_witness :
    (create_dxf_drawing (preparedOf recC1)).toOption.map (fun df => df.1.polylines) =
      some [PolylineEnt.mk [(0, 0), (100, 0), (100, 50), (0, 50)] true "CONTORNO"] :=
  C1_rectangle_contour.1 (preparedOf recC1) 100 50 (by decide) (by decide) (by decide)

/-- C2 as stated is false: it says an absent numeric key yields its
declared default, `0.0` for `material_density` — but the weight
calculation reads an absent density as `7850`, so a record without
`material_density` and the same record with `material_density = 0.0`
produce different annotation text (`78,500 Kg` versus `0,000 Kg`). -/
theorem C2_coercion_counterexample :
    (_prepare_data_for_dxf recC2noDensity).toOption.map (fun pp => pp.text_lines) =
      some (some ["P1", "Espessura: 10.00 mm  (Qtd: 01x)",
        "Peso Unitario: 78,500 Kg", "Peso Total: 78,500 Kg"]) ∧
    (_prepare_data_for_dxf recC2density0).toOption.map (fun pp => pp.text_lines) =
      some (some ["P1", "Espessura: 10.00 mm  (Qtd: 01x)",
        "Peso Unitario: 0,000 Kg", "Peso Total: 0,000 Kg"]) ∧
    (_prepare_data_for_dxf recC2noDensity).toOption.map (fun pp => pp.text_lines) ≠
      (_prepare_data_for_dxf recC2density0).toOption.map (fun pp => pp.text_lines) :=
  ⟨by decide, by decide, by decide⟩

/-- C2 (amended): coercion never raises; a present value of a numeric
field is mapped through `to_float` with the field's declared default
(`0.0`, except `1.0` for `part_quantity`), a comma is read as a decimal
point (`"10,5"` coerces to `10.5`), and an unparsable present value —
including the empty string — yields the declared default.  An absent key,
however, is left uncoerced (downstream reads supply per-use defaults,
which for `material_density` is `7850`, not `0.0`). -/
theorem C2_coercion_amended :
    (∀ (p : Dict) (k : String), k ∈ numericKeys → ∀ v, dget? p k = some v →
        dget? (coerceNumerics p) k =
          some (Value.num (to_float v (defaultFor k)))) ∧
    (∀ d, to_float (Value.str "10,5") d = 21 / 2) ∧
    (∀ d, to_float (Value.str "") d = d) ∧
    (∀ s d, pyFloat? (pyReplaceChar ',' '.' s) = none →
        to_float (Value.str s) d = d) ∧
    (∀ (p : Dict) (k : String), k ∈ numericKeys →
        dget? p k = none → dget? (coerceNumerics p) k = none) := by
  refine ⟨?_, ?_, ?_, ?_, ?_⟩
  · intro p k hk v hv
    rw [coerceNumerics, coerce_foldl_get, if_pos hk, hv]
    rfl
  · intro d
    rfl
  · intro d
    rfl
  · intro s d h
    simp [to_float, h]
  · intro p k hk h
    rw [coerceNumerics, coerce_foldl_get, if_pos hk, h]
    rfl

theorem C2_coercion_witness :
    dget? (coerceNumerics [("width", Value.str "10,5")]) "width" =
      some (Value.num (to_float (Value.str "10,5") (defaultFor "width"))) ∧
    to_float (Value.str "10,5") 0 = 21 / 2 ∧
    dget? (coerceNumerics [("part_name", Value.str "x")]) "height" = none :=
  ⟨C2_coercion_amended.1 [("width", Value.str "10,5")] "width" (by decide)
      (Value.str "10,5") (by decide),
   C2_coercion_amended.2.1 0,
   C2_coercion_amended.2.2.2.2 [("part_name", Value.str "x")] "height"
      (by decide) (by decide)⟩

/-- C3: whenever annotation is enabled and the rectangle area is positive,
the weight calculator produces exactly 4 text lines — the uppercased part
name; the thickness-and-quantity line; the unit weight `volume_m³ ×
density` with `volume_m³ = (area/1e6) × (thickness/1000)` and density
defaulting to `7850`, formatted to 3 decimals with a comma as decimal
separator; and the total weight `unit × quantity`, formatted likewise.
For width 1000, height 1000, thickness 10, density 7850 and quantity 2 the
produced text contains `78,500` and `157,000`. -/
theorem C3_weight_lines :
    (∀ p : Dict,
        dget? p "shape" = some (Value.str "rectangle") →
        0 < getNumD p "width" 0 * getNumD p "height" 0 →
        mkTextLines p =
          [pyUpper (pyStr ((dget? p "part_name").getD (Value.str ""))),
           "Espessura: " ++ formatFixed (getNumD p "material_thickness" 0) 2 ++
             " mm  (Qtd: " ++ formatInt02 (pyInt (getNumD p "part_quantity" 1)) ++ "x)",
           pyReplaceChar '.' ','
             ("Peso Unitario: " ++
               formatFixed ((getNumD p "width" 0 * getNumD p "height" 0 / 1000000) *
                 (getNumD p "material_thickness" 0 / 1000) *
                 getNumD p "material_density" 7850) 3 ++ " Kg"),
           pyReplaceChar '.' ','
             ("Peso Total: " ++
               formatFixed (((getNumD p "width" 0 * getNumD p "height" 0 / 1000000) *
                 (getNumD p "material_thickness" 0 / 1000) *
                 getNumD p "material_density" 7850) *
                 (pyInt (getNumD p "part_quantity" 1) : ℚ)) 3 ++ " Kg")] ∧
        (mkTextLines p).length = 4) ∧
    (∀ raw pp, _prepare_data_for_dxf raw = Except.ok pp →
        parseBoolOpt (dget? pp.params "include_text_info") = true →
        pp.text_lines = some (mkTextLines pp.params)) ∧
    (_prepare_data_for_dxf recC3).toOption.map (fun pp => pp.text_lines) =
      some (some ["P1", "Espessura: 10.00 mm  (Qtd: 02x)",
        "Peso Unitario: 78,500 Kg", "Peso Total: 157,000 Kg"]) := by
  refine ⟨?_, ?_, by decide⟩
  · intro p hs hpos
    have ha : areaOf p = getNumD p "width" 0 * getNumD p "height" 0 := by
      simp [areaOf, hs]
    have hn : ¬ (getNumD p "width" 0 * getNumD p "height" 0 ≤ 0) := not_le.mpr hpos
    constructor
    · rw [mkTextLines, ha, if_neg hn]
    · rw [mkTextLines, ha, if_neg hn]
      rfl
  · intro raw pp hok hen
    unfold _prepare_data_for_dxf at hok
    split at hok
    · cases hok
      have hen2 : parseBoolOpt
          (dget? (coerceNumerics (translateKeys raw)) "include_text_info") =
            true := hen
      simp [preparedOf, hen2]
    · exact absurd hok (by simp)

theorem C3_weight_lines_witness :
    (preparedOf recC3).text_lines = some (mkTextLines (preparedOf recC3).params) ∧
    mkTextLines (preparedOf recC3).params =
      ["P1", "Espessura: 10.00 mm  (Qtd: 02x)",
       "Peso Unitario: 78,500 Kg", "Peso Total: 157,000 Kg"] :=
  ⟨C3_weight_lines.2.1 recC3 (preparedOf recC3) rfl (by decide),
   ((C3_weight_lines.1 (preparedOf recC3).params (by decide) (by decide)).1).trans
     (by decide)⟩

/-- C4: a requested annotation whose area computation fails (area ≤ 0) does
not reject the record — preparation still succeeds whenever the required
fields are present, the annotation becomes exactly the two-line diagnostic
`[<NAME>, ERRO NO CALCULO DE PESO]`, and the drawing is still produced for
any record whose shape resolves in the registry and whose geometry fields
are present. -/
theorem C4_weight_error_nonfatal :
    (∀ raw : Dict,
        truthyOpt (dget? (translateKeys raw) "part_name") = true →
        truthyOpt (dget? (translateKeys raw) "shape") = true →
        _prepare_data_for_dxf raw = Except.ok (preparedOf raw)) ∧
    (∀ p : Dict, areaOf p ≤ 0 →
        mkTextLines p =
          [pyUpper (pyStr ((dget? p "part_name").getD (Value.str ""))),
           "ERRO NO CALCULO DE PESO"]) ∧
    (∀ pp : Prepared,
        dget? pp.params "shape" = some (Value.str "rectangle") →
        (∃ w, dget? pp.params "width" = some (Value.num w)) →
        (∃ h, dget? pp.params "height" = some (Value.num h)) →
        ∃ doc fname, create_dxf_drawing pp = Except.ok (doc, fname)) := by
  refine ⟨?_, ?_, ?_⟩
  · intro raw h1 h2
    unfold _prepare_data_for_dxf
    rw [h1, h2]
    rfl
  · intro p hle
    rw [mkTextLines, if_pos hle]
  · intro pp hs hw hh
    obtain ⟨w, hw⟩ := hw
    obtain ⟨h, hh⟩ := hh
    simp only [create_dxf_drawing, hs, hw, hh, if_pos]
    exact ⟨_, _, rfl⟩

theorem C4_weight_error_nonfatal_witness :
    _prepare_data_for_dxf recC4 = Except.ok (preparedOf recC4) ∧
    mkTextLines (preparedOf recC4).params = ["P1", "ERRO NO CALCULO DE PESO"] ∧
    (∃ doc fname,
      create_dxf_drawing (preparedOf recC4) = Except.ok (doc, fname)) :=
  ⟨C4_weight_error_nonfatal.1 recC4 (by decide) (by decide),
   (C4_weight_error_nonfatal.2.1 (preparedOf recC4).params (by decide)).trans
     (by decide),
   C4_weight_error_nonfatal.2.2 (preparedOf recC4) (by decide)
     ⟨0, by decide⟩ ⟨50, by decide⟩⟩

/-- C5: the style calculator sets `char_height = clamp(max_dim/25, 5, 35)`
with `max_dim = max(width, height, diameter)` and `200` substituted when no
dimension is positive — so `char_height` always lies in `[5, 35]`; it sets
`dim_distance = max(15, char_height×3)` — always `≥ 15`; and it sets
`text_insert_point = (0, −2×char_height)`. -/
theorem pyMax_pos (a b : ℚ) : 0 < pyMax a b ↔ 0 < a ∨ 0 < b := by
  unfold pyMax
  split_ifs with h
  · constructor
    · exact fun hx => Or.inr hx
    · intro hx
      rcases hx with hx | hx
      · linarith
      · exact hx
  · constructor
    · exact fun hx => Or.inl hx
    · intro hx
      rcases hx with hx | hx
      · exact hx
      · linarith

theorem C5_style_invariants (p : Dict) :
    let m0 := pyMax (getNumD p "width" 0)
      (pyMax (getNumD p "height" 0) (getNumD p "diameter" 0))
    let m := if m0 > 0 then m0 else 200
    (mkStyles p).char_height = pyMin (pyMax (m / 25) 5) 35 ∧
    (0 < m0 ↔ (0 < getNumD p "width" 0 ∨ 0 < getNumD p "height" 0 ∨
      0 < getNumD p "diameter" 0)) ∧
    5 ≤ (mkStyles p).char_height ∧
    (mkStyles p).char_height ≤ 35 ∧
    (mkStyles p).dim_distance = pyMax 15 ((mkStyles p).char_height * 3) ∧
    15 ≤ (mkStyles p).dim_distance ∧
    (mkStyles p).text_insert_point = (0, -(2 * (mkStyles p).char_height)) := by
  intro m0 m
  have hch : (mkStyles p).char_height = pyMin (pyMax (m / 25) 5) 35 := rfl
  have hdd : (mkStyles p).dim_distance =
      pyMax 15 ((mkStyles p).char_height * 3) := rfl
  have hti : (mkStyles p).text_insert_point =
      (0, -(mkStyles p).char_height * 2) := rfl
  refine ⟨hch, ?_, ?_, ?_, hdd, ?_, ?_⟩
  · show 0 < pyMax (getNumD p "width" 0)
        (pyMax (getNumD p "height" 0) (getNumD p "diameter" 0)) ↔ _
    rw [pyMax_pos, pyMax_pos]
  · rw [hch]
    unfold pyMin pyMax
    split_ifs <;> linarith
  · rw [hch]
    unfold pyMin pyMax
    split_ifs <;> linarith
  · rw [hdd]
    unfold pyMax
    split_ifs <;> linarith
  · rw [hti, Prod.mk.injEq]
    exact ⟨rfl, by ring⟩

/-- C6: for both boolean options (`include_text_info`, `include_dims`) and
for every input value, the option evaluates to true iff the value's string
form, lowercased, is one of `true`, `on`, `1`, `sim`; every other value —
including absence of the key — evaluates to false.  The sample values show
the boundary: a numeric `1` stringifies to `1.0` and is false. -/
theorem C6_truthy_tokens :
    (∀ o : Option Value, parseBoolOpt o = true ↔
        (pyLower (pyStr (o.getD (Value.str ""))) = "true" ∨
         pyLower (pyStr (o.getD (Value.str ""))) = "on" ∨
         pyLower (pyStr (o.getD (Value.str ""))) = "1" ∨
         pyLower (pyStr (o.getD (Value.str ""))) = "sim")) ∧
    parseBoolOpt none = false ∧
    (∀ p : Dict,
        (mkStyles p).include_dims = parseBoolOpt (dget? p "include_dims")) ∧
    (∀ raw : Dict, (preparedOf raw).text_lines ≠ none ↔
        parseBoolOpt (dget? (coerceNumerics (translateKeys raw))
          "include_text_info") = true) ∧
    (parseBoolOpt (some (Value.str "TRUE")) = true ∧
     parseBoolOpt (some (Value.str "Sim")) = true ∧
     parseBoolOpt (some (Value.str "oN")) = true ∧
     parseBoolOpt (some (Value.str "1")) = true ∧
     parseBoolOpt (some (Value.num 1)) = false ∧
     parseBoolOpt (some (Value.str "false")) = false ∧
     parseBoolOpt (some (Value.str "yes")) = false ∧
     parseBoolOpt (some (Value.str "")) = false) := by
  refine ⟨?_, rfl, fun p => rfl, ?_, by decide⟩
  · intro o
    simp [parseBoolOpt, TRUTHY_TOKENS, List.contains_eq_any_beq]
  · intro raw
    by_cases hb : parseBoolOpt
        (dget? (coerceNumerics (translateKeys raw)) "include_text_info") = true
    · simp [preparedOf, hb]
    · simp [preparedOf, hb]

/-- C7 fails as stated: the sanitizer is `re.sub(r'[^\w.-]+', '_', name)`,
whose `+` makes a whole run of disallowed characters collapse into a single
underscore, while the claim replaces each disallowed character.  On the
claim's own sample `Part #1/2024` the code produces `Part_1_2024.dxf`
(one `_` for the two-character run ` #`), not the per-character
`Part__1_2024.dxf`. -/
theorem C7_sanitize_counterexample :
    (runPipeline recC7).toOption.map Prod.snd = some "Part_1_2024.dxf" ∧
    sanitizeSpecFilename "Part #1/2024" = "Part__1_2024.dxf" ∧
    (runPipeline recC7).toOption.map Prod.snd ≠
      some (sanitizeSpecFilename "Part #1/2024") :=
  ⟨by decide, by decide, by decide⟩

theorem sanitizeAux_all_allowed (l : List Char) (b : Bool) :
    (sanitizeAux l b).all allowedChar = true := by
  induction l generalizing b with
  | nil => rfl
  | cons c rest ih =>
    unfold sanitizeAux
    by_cases hc : allowedChar c = true
    · simp [hc, ih]
    · by_cases hb : b = true
      · simp [hc, hb, ih]
      · simp [hc, hb, ih]
        decide

/-- C7 (amended): the suggested filename equals `part_name` with every
maximal run of characters outside `[A-Za-z0-9._-]` replaced by a single
`_`, followed by the fixed `.dxf` extension; for an ASCII part name the
result therefore contains only characters of that set. -/
theorem C7_sanitize_amended :
    ∀ (pp : Prepared) (doc : Doc) (fname : String),
      create_dxf_drawing pp = Except.ok (doc, fname) →
      fname = pySubSanitize (pyStrOpt (dget? pp.params "part_name")) ++ ".dxf" ∧
      ((pyStrOpt (dget? pp.params "part_name")).data.all isAsciiChar = true →
        fname.data.all allowedChar = true) := by
  intro pp doc fname hok
  simp only [create_dxf_drawing] at hok
  split at hok
  · split at hok
    · exact absurd hok (by simp)
    · exact absurd hok (by simp)
    · split at hok
      · exact absurd hok (by simp)
      · exact absurd hok (by simp)
      · have hf : fname =
            pySubSanitize (pyStrOpt (dget? pp.params "part_name")) ++ ".dxf" := by
          injection hok with h2
          exact (congrArg Prod.snd h2).symm
        refine ⟨hf, fun _ => ?_⟩
        rw [hf]
        have h1 := sanitizeAux_all_allowed
          (pyStrOpt (dget? pp.params "part_name")).data false
        simp [pySubSanitize, List.all_append, h1]
        decide
  · exact absurd hok (by simp)

theorem C7_sanitize_witness :
    "Part_1_2024.dxf" =
      pySubSanitize (pyStrOpt (dget? (preparedOf recC7).params "part_name")) ++
        ".dxf" :=
  (C7_sanitize_amended (preparedOf recC7)
    (((create_dxf_drawing (preparedOf recC7)).toOption.map Prod.fst).getD
      (Doc.mk [] [] [] [] []))
    "Part_1_2024.dxf" rfl).1

/-- C8: a prepared record whose shape identifier does not resolve in the
registry (anything but `rectangle`) makes the emitter return no document
content, only the unknown-shape message `Forma '…' desconhecida.`; no
`(content, filename)` pair is ever produced for it. -/
theorem C8_unknown_shape :
    ∀ pp : Prepared,
      dget? pp.params "shape" ≠ some (Value.str "rectangle") →
      create_dxf_drawing pp =
        Except.error ("Forma \x27" ++ pyStrOpt (dget? pp.params "shape") ++
          "\x27 desconhecida.") ∧
      ∀ doc fname, create_dxf_drawing pp ≠ Except.ok (doc, fname) := by
  intro pp hs
  have he : create_dxf_drawing pp =
      Except.error ("Forma \x27" ++ pyStrOpt (dget? pp.params "shape") ++
        "\x27 desconhecida.") := by
    simp only [create_dxf_drawing]
    rw [if_neg hs]
  refine ⟨he, fun doc fname hok => ?_⟩
  rw [he] at hok
  cases hok

theorem C8_unknown_shape_witness :
    create_dxf_drawing ppC8 = Except.error "Forma \x27circle\x27 desconhecida." :=
  ((C8_unknown_shape ppC8 (by decide)).1).trans rfl

/-- Override precedence of the batch merge: `raw_data.update(request.form)`
makes a per-request form value beat the row's value for a colliding key,
also after key translation (`forma` aliases the same canonical key
`shape`). -/
theorem dictUpdate_override_wins :
    dget? (translateKeys (dictUpdate
      [("part_name", Value.str "P"), ("forma", Value.str "rectangle")]
      [("forma", Value.str "circle")])) "shape" = some (Value.str "circle") := by
  decide

/-- On the non-raising path `prepareFull` returns exactly the value of the
finite-fragment `_prepare_data_for_dxf`. -/
theorem prepareFull_ok (raw : Dict) (res : Except String Prepared)
    (h : prepareFull raw = PyResult.ok res) :
    res = _prepare_data_for_dxf raw := by
  by_cases hc : (truthyOpt (dget? (translateKeys raw) "part_name") &&
      truthyOpt (dget? (translateKeys raw) "shape")) = true
  · unfold prepareFull at h
    rw [if_pos hc] at h
    unfold _prepare_data_for_dxf
    rw [if_pos hc]
    cases h1 : colorIntChecked (coerceNumerics (translateKeys raw))
        "contour_color" 7 with
    | error e => simp [h1] at h
    | ok z1 =>
      simp only [h1] at h
      cases h2 : colorIntChecked (coerceNumerics (translateKeys raw))
          "holes_color" 1 with
      | error e => simp [h2] at h
      | ok z2 =>
        simp only [h2] at h
        cases h3 : colorIntChecked (coerceNumerics (translateKeys raw))
            "text_color" 2 with
        | error e => simp [h3] at h
        | ok z3 =>
          simp only [h3] at h
          injection h with h4
          exact h4.symm
  · unfold prepareFull at h
    rw [if_neg hc] at h
    unfold _prepare_data_for_dxf
    rw [if_neg hc]
    injection h with h4
    exact h4.symm

/-- C9 asserts the batch never propagates an exception from a failing
record.  The code violates this: a row whose `contour_color` cell is the
string `inf` makes `int(to_float(...))` in step 4 of
`_prepare_data_for_dxf` raise an uncaught `OverflowError`, and the loop of
`generate_dxf_batch` has no handler, so the whole batch aborts — the 3-row
batch below returns nothing instead of the 2 pairs its drawable rows
produce.  The remaining conjuncts show the claimed behaviour is the
design's rule everywhere else: on the spec's 5-row example (2 rows missing
`shape`) the exception-aware loop completes normally with exactly 3 pairs,
and on every raise-free batch it agrees with the skip-and-continue loop,
which drops exactly the failing rows. -/
theorem C9_batch_abort :
    generate_dxf_batch_full [] [rowA, rowColorInf, rowC] =
      PyResult.raised "OverflowError: cannot convert float infinity to integer" ∧
    (generate_dxf_batch [] [rowA, rowC]).length = 2 ∧
    (generate_dxf_batch_full [] batchC9 =
        PyResult.ok (generate_dxf_batch [] batchC9) ∧
      (generate_dxf_batch [] batchC9).length = 3) ∧
    (∀ (overrides : Dict) (rows : List Dict),
        rows.all (fun r => !(prepareFull (dictUpdate r overrides)).isRaised) = true →
        generate_dxf_batch_full overrides rows =
          PyResult.ok (generate_dxf_batch overrides rows)) := by
  refine ⟨by decide, by decide, ⟨by decide, by decide⟩, ?_⟩
  intro ov rows h
  induction rows with
  | nil => rfl
  | cons r rs ih =>
    rw [List.all_cons, Bool.and_eq_true] at h
    obtain ⟨h1, h2⟩ := h
    have hrec := ih h2
    cases hp : prepareFull (dictUpdate r ov) with
    | raised e =>
      rw [hp] at h1
      simp [PyResult.isRaised] at h1
    | ok res =>
      have hres := prepareFull_ok _ _ hp
      subst hres
      cases hprep : _prepare_data_for_dxf (dictUpdate r ov) with
      | error e =>
        have hpr : processRecord ov r = none := by
          simp [processRecord, hprep]
        simp only [generate_dxf_batch_full, hp, hprep]
        rw [hrec]
        simp [generate_dxf_batch, List.filterMap_cons, hpr]
      | ok pp =>
        cases hcr : create_dxf_drawing pp with
        | error e =>
          have hpr : processRecord ov r = none := by
            simp [processRecord, hprep, hcr]
          simp only [generate_dxf_batch_full, hp, hprep, hcr]
          rw [hrec]
          simp [generate_dxf_batch, List.filterMap_cons, hpr]
        | ok df =>
          obtain ⟨doc, fname⟩ := df
          have hpr : processRecord ov r = some (fname, doc) := by
            simp [processRecord, hprep, hcr]
          simp only [generate_dxf_batch_full, hp, hprep, hcr]
          rw [hrec]
          simp [generate_dxf_batch, List.filterMap_cons, hpr]

theorem C9_batch_abort_witness :
    generate_dxf_batch_full [] [rowA, rowC] =
      PyResult.ok (generate_dxf_batch [] [rowA, rowC]) :=
  C9_batch_abort.2.2.2 [] [rowA, rowC] (by decide)

/-- C10: running the full pipeline (preparation followed by drawing
emission) twice on an identical raw record yields identical document
content and the same filename.  The embedded pipeline is a pure function of
the record, as the source is: no clock or randomness is consulted while a
record's geometry, text or filename is built (`datetime.now()` appears only
in the batch archive's own name, outside the per-record output), and the
content is the structural `Doc` value the emitter assembles. -/
theorem C10_determinism :
    ∀ raw : Dict,
      runPipeline raw = runPipeline raw ∧
      (∀ doc1 f1 doc2 f2,
          runPipeline raw = Except.ok (doc1, f1) →
          runPipeline raw = Except.ok (doc2, f2) →
          doc1 = doc2 ∧ f1 = f2) := by
  intro raw
  refine ⟨rfl, ?_⟩
  intro doc1 f1 doc2 f2 h1 h2
  rw [h1] at h2
  injection h2 with h
  exact ⟨congrArg Prod.fst h, congrArg Prod.snd h⟩

theorem C10_determinism_witness :
    docC10 = docC10 ∧ "W10.dxf" = "W10.dxf" :=
  (C10_determinism recC10).2 docC10 "W10.dxf" docC10 "W10.dxf" rfl rfl

theorem C5_style_invariants_witness :
    5 ≤ (mkStyles []).char_height ∧ (mkStyles []).char_height ≤ 35 :=
  ⟨(C5_style_invariants []).2.2.1, (C5_style_invariants []).2.2.2.1⟩

theorem C6_truthy_tokens_witness :
    parseBoolOpt (some (Value.str "TRUE")) = true ∧ parseBoolOpt none = false :=
  ⟨C6_truthy_tokens.2.2.2.2.1, C6_truthy_tokens.2.1⟩
